import Mathlib

/-!
# ESP8266 DHT CSV logger: time synthesis, log naming, storage session and acquisition loop

A shallow embedding of `src/main.cpp`.

* Machine integers are mathematical integers with explicit reduction modulo `2^w`
  where the C arithmetic is performed in a `w`-bit unsigned type.
* The hardware and the drivers (SD card, LED, sensor, `millis()`) are modelled by the
  outcomes they hand back to the program (a `Cycle` record per pass through `loop`) and by
  a trace of the calls the program makes (`Event`).
* Character buffers keep their declared size: a `sprintf` that writes more bytes than the
  array holds has undefined behaviour in C, and the model stops there (`Outcome.overrun`)
  instead of carrying on with a longer string.
* `gmtime` is the C library conversion from seconds since the epoch to UTC calendar
  fields; it is not part of the repository and is modelled by the civil-from-days
  computation used by the embedded C library.
-/

namespace DhtLogger

/-! ## Calendar time -/

/-- The fields of `struct tm` that the program reads (all of C type `int`). -/
structure Tm where
  tm_sec : Int
  tm_min : Int
  tm_hour : Int
  tm_mday : Int
  tm_mon : Int
  tm_year : Int
deriving DecidableEq, Repr

/-- Year of the 400-year era (starting 1 March) that contains day `eraday` of the era. -/
def eraYearOf (eraday : Int) : Int :=
  (eraday - eraday / 1460 + eraday / 36524 - eraday / 146096) / 365

/-- Index, within its era, of the first day (1 March) of era year `y`. -/
def yearStart (y : Int) : Int :=
  365 * y + y / 4 - y / 100

/-- The C library `gmtime`: seconds since 1970-01-01 00:00:00 UTC to broken-down UTC
time. `time_t` is a signed 64-bit integer on the target, rendered here as `Int`
(`/` and `%` are floor division and its non-negative remainder). -/
def gmtime (t : Int) : Tm :=
  let days := t / 86400 + 719468
  let rem := t % 86400
  let era := days / 146097
  let eraday := days - era * 146097
  let erayear := eraYearOf eraday
  let yearday := eraday - yearStart erayear
  let month := (5 * yearday + 2) / 153
  let day := yearday - (153 * month + 2) / 5 + 1
  let mon := if month < 10 then month + 2 else month - 10
  let year := erayear + era * 400 + (if mon ≤ 1 then 1 else 0)
  { tm_sec := rem % 3600 % 60
    tm_min := rem % 3600 / 60
    tm_hour := rem / 3600
    tm_mday := day
    tm_mon := mon
    tm_year := year - 1900 }

/-- `int buildTimeWithOffsets = BUILD_TIME + 30 + 3600;` where `BUILD_TIME` is the UNIX
time of the build, injected by the build system as a preprocessor constant. -/
def buildTimeWithOffsets (BUILD_TIME : Int) : Int :=
  BUILD_TIME + 30 + 3600

/-- The assignment `currentTime = buildTimeWithOffsets + (millis()/1000);`.
`millis()` returns a 32-bit `unsigned long`, so the `int` operand is converted to
`unsigned long` and the sum is taken modulo `2^32` before it is widened to `time_t`. -/
def currentTime (BUILD_TIME : Int) (millis : Nat) : Int :=
  (buildTimeWithOffsets BUILD_TIME + ((millis % 4294967296 / 1000 : Nat) : Int)) % 4294967296

/-- `const char* logFileNameStarter = "dhtLog_";` -/
def logFileNameStarter : String := "dhtLog_"

/-- The characters `formatTimeForCsv` writes to `timeChar` (without the final NUL);
`%d` of an `int` is its plain decimal rendering. -/
def formatTimeForCsv (BUILD_TIME : Int) (millis : Nat) : String :=
  let aux := gmtime (currentTime BUILD_TIME millis)
  (if aux.tm_mday < 10 then "0" else "") ++ toString aux.tm_mday ++ "/"
    ++ (if aux.tm_mon + 1 < 10 then "0" else "") ++ toString (aux.tm_mon + 1) ++ "/"
    ++ toString (aux.tm_year + 1900) ++ " "
    ++ (if aux.tm_hour < 10 then "0" else "") ++ toString aux.tm_hour ++ ":"
    ++ (if aux.tm_min < 10 then "0" else "") ++ toString aux.tm_min ++ ":"
    ++ (if aux.tm_sec < 10 then "0" else "") ++ toString aux.tm_sec

/-- The characters `formatTimeForFileName` writes to `timeChar` (without the final NUL). -/
def formatTimeForFileName (BUILD_TIME : Int) (millis : Nat) : String :=
  let aux := gmtime (currentTime BUILD_TIME millis)
  logFileNameStarter ++ toString (aux.tm_year + 1900) ++ "-"
    ++ (if aux.tm_mon + 1 < 10 then "0" else "") ++ toString (aux.tm_mon + 1) ++ "-"
    ++ (if aux.tm_mday < 10 then "0" else "") ++ toString aux.tm_mday

/-- Size in bytes of `char dhtLogFileName[15]` in `loop`. -/
def dhtLogFileNameSize : Nat := 15

/-- Size in bytes of `char timeString[20]` in `logDhtReadings`. -/
def timeStringSize : Nat := 20

/-! ### The formats as the specification words them -/

/-- A number rendered as exactly two decimal digits. -/
def twoDigits (n : Int) : String :=
  String.mk [Nat.digitChar (n.toNat / 10 % 10), Nat.digitChar (n.toNat % 10)]

/-- A number rendered as exactly four decimal digits. -/
def fourDigits (n : Int) : String :=
  String.mk [Nat.digitChar (n.toNat / 1000 % 10), Nat.digitChar (n.toNat / 100 % 10),
    Nat.digitChar (n.toNat / 10 % 10), Nat.digitChar (n.toNat % 10)]

/-- The record timestamp `DD/MM/YYYY hh:mm:ss`. -/
def csvTimestamp (aux : Tm) : String :=
  twoDigits aux.tm_mday ++ "/" ++ twoDigits (aux.tm_mon + 1) ++ "/"
    ++ fourDigits (aux.tm_year + 1900) ++ " "
    ++ twoDigits aux.tm_hour ++ ":" ++ twoDigits aux.tm_min ++ ":" ++ twoDigits aux.tm_sec

/-- The file name `dhtLog_YYYY-MM-DD`. -/
def logFileName (aux : Tm) : String :=
  "dhtLog_" ++ fourDigits (aux.tm_year + 1900) ++ "-" ++ twoDigits (aux.tm_mon + 1)
    ++ "-" ++ twoDigits aux.tm_mday

/-- Current Time as the specification words it: the Epoch Anchor plus the whole seconds
of uptime, with no machine arithmetic. -/
def specCurrentTime (anchor : Int) (millis : Nat) : Int :=
  anchor + ((millis / 1000 : Nat) : Int)

/-- The calendar date (year, month, day of month) of a broken-down time. -/
def calendarDate (aux : Tm) : Int × Int × Int :=
  (aux.tm_year + 1900, aux.tm_mon + 1, aux.tm_mday)

/-- The UTC day number (whole days since the epoch) that a time falls on. -/
def utcDay (t : Int) : Int := t / 86400

/-- The calendar year has four digits. -/
def fourDigitYear (aux : Tm) : Prop :=
  1000 ≤ aux.tm_year + 1900 ∧ aux.tm_year + 1900 ≤ 9999

instance (aux : Tm) : Decidable (fourDigitYear aux) := by
  unfold fourDigitYear; infer_instance

/-! ## Build configuration -/

/-- `#define ENV_DEBUG 1` -/
def ENV_DEBUG : Nat := 1

/-- `#define SD_MOUNT_RETRY_SECONDS 30` -/
def SD_MOUNT_RETRY_SECONDS : Nat := 30

/-- `#define DELAY_BETWEEN_READINGS_SECONDS 90` -/
def DELAY_BETWEEN_READINGS_SECONDS : Nat := 90

/-- The two constants the build system injects: the build's UNIX time and the build type. -/
structure Config where
  BUILD_TIME : Int
  BUILD_TYPE : Nat
deriving DecidableEq, Repr

/-- `DELAY_MULTIPLIER` is 100 in the debug environment and 1000 otherwise. -/
def DELAY_MULTIPLIER (cfg : Config) : Nat :=
  if cfg.BUILD_TYPE = ENV_DEBUG then 100 else 1000

/-! ## Observable calls and program state -/

/-- The calls the program makes on the LED, the clock, the SD driver and the sensor, with
the result the driver returned where the program looks at it. Floating-point readings are
carried as opaque bit patterns; console diagnostics are left out. `visualError` and
`visualSuccess` mark the entry of `displayLedVisualError` and `displayLedVisualSuccess`. -/
inductive Event where
  | digitalWrite (high : Bool)
  | delay (ms : Nat)
  | sdBegin (ok : Bool)
  | sdOpen (filename : String) (ok : Bool)
  | filePrintf (timeString : String) (temp hum heatIndexTemp : Nat) (ok : Bool)
  | fileClose
  | readHumidity
  | readTemperature
  | computeHeatIndex
  | visualError
  | visualSuccess
deriving DecidableEq, Repr

/-- The global `uint8_t errorCount` together with the trace of calls made so far.
The global `currentTime` is overwritten before each of its two uses and the global file
handle is only used between its `open` and `close`, so neither carries state. -/
structure State where
  errorCount : Nat
  trace : List Event
deriving DecidableEq, Repr

/-- Append calls to the trace. -/
def State.emit (s : State) (es : List Event) : State :=
  { s with trace := s.trace ++ es }

/-- What the drivers hand back during one pass through `loop`: the results of the
successive `SD.begin` calls (should the pass make any), the two `millis()` readings, the
sensor values, and the results of `SD.open` and of the record write. -/
structure Cycle where
  mounts : List Bool
  millisForFileName : Nat
  rhum : Nat
  temp : Nat
  hic : Nat
  openOk : Bool
  millisForCsv : Nat
  writeOk : Bool
deriving DecidableEq, Repr

/-! ## The program -/

/-- `displayLedVisualError()` -/
def displayLedVisualError (s : State) : State :=
  s.emit [.visualError,
    .digitalWrite false, .delay 120, .digitalWrite true, .delay 120,
    .digitalWrite false, .delay 120, .digitalWrite true, .delay 350,
    .digitalWrite false, .delay 120, .digitalWrite true, .delay 120,
    .digitalWrite false, .delay 120, .digitalWrite true, .delay 300]

/-- `displayLedVisualSuccess()` -/
def displayLedVisualSuccess (s : State) : State :=
  s.emit [.visualSuccess,
    .digitalWrite false, .delay 220, .digitalWrite true, .delay 150,
    .digitalWrite false, .delay 220, .digitalWrite true]

/-- The `while (!SD.begin(SD_CS_PIN)) { ... }` of `initializeSdCardLoop`, run against the
results of the successive `SD.begin` calls. It returns the state on leaving the loop and
the results not consumed, or `none` when every supplied result was a failure (the loop is
still retrying). -/
def initializeSdCardLoop_while (cfg : Config) : List Bool → State → Option (State × List Bool)
  | [], _ => none
  | true :: rest, s => some (s.emit [.sdBegin true], rest)
  | false :: rest, s =>
    let s := s.emit [.sdBegin false, .digitalWrite true]
    let s := displayLedVisualError s
    let s := s.emit [.delay (SD_MOUNT_RETRY_SECONDS * DELAY_MULTIPLIER cfg),
      .digitalWrite false, .delay 500]
    initializeSdCardLoop_while cfg rest s

/-- `initializeSdCardLoop()` -/
def initializeSdCardLoop (cfg : Config) (mounts : List Bool) (s : State) :
    Option (State × List Bool) :=
  match initializeSdCardLoop_while cfg mounts (s.emit [.digitalWrite false]) with
  | none => none
  | some (s, rest) =>
    let s := displayLedVisualSuccess s
    some ({ s with errorCount := 0 }, rest)

/-- `logDhtReadings(filename, temp, hum, heatIndexTemp)`: the returned `uint8_t` error code
and the state on return. `openOk` is whether `SD.open` gave a usable file, `millis` the
clock reading taken by `formatTimeForCsv`, `writeOk` the (ignored) result of the write. -/
def logDhtReadings (cfg : Config) (filename : String) (temp hum heatIndexTemp : Nat)
    (openOk : Bool) (millis : Nat) (writeOk : Bool) (s : State) : Nat × State :=
  let errorCode := 1
  let s := s.emit [.sdOpen filename openOk]
  if openOk then
    let s := s.emit [.digitalWrite false]
    let timeString := formatTimeForCsv cfg.BUILD_TIME millis
    let s := s.emit [.filePrintf timeString temp hum heatIndexTemp writeOk, .fileClose]
    let errorCode := 0
    let s := { s with errorCount := 0 }
    (errorCode, s.emit [.digitalWrite true])
  else
    let s := displayLedVisualError s
    (errorCode, s.emit [.digitalWrite true])

/-- The first statement of `loop`: `if(errorCount > 11) { initializeSdCardLoop(); }`.
The result is the state in which the rest of the pass runs. -/
def loopRemount (cfg : Config) (env : Cycle) (s : State) : Option State :=
  if s.errorCount > 11 then
    (initializeSdCardLoop cfg env.mounts s).map Prod.fst
  else
    some s

/-- How far the program gets: to the end of the passes asked for, or stuck in the mount
loop after all the supplied `SD.begin` results, or to a write past the end of
`char dhtLogFileName[15]`, where C leaves the behaviour undefined (the state carried is
the one at that point). -/
inductive Outcome where
  | done (s : State)
  | blocked
  | overrun (s : State)
deriving DecidableEq, Repr

/-- The statements of `loop` that follow `formatTimeForFileName(dhtLogFileName)`, run with
the string that `dhtLogFileName` holds: the sensor reads, `logDhtReadings`, the 8-bit
`errorCount++` on a non-zero return, and the delay. -/
def loopWrite (cfg : Config) (env : Cycle) (dhtLogFileName : String) (s : State) : State :=
  let s := s.emit [.readHumidity, .readTemperature, .computeHeatIndex]
  let r := logDhtReadings cfg dhtLogFileName env.temp env.rhum env.hic
    env.openOk env.millisForCsv env.writeOk s
  let s := if r.1 ≠ 0 then { r.2 with errorCount := (r.2.errorCount + 1) % 256 } else r.2
  s.emit [.delay (DELAY_BETWEEN_READINGS_SECONDS * DELAY_MULTIPLIER cfg)]

/-- One pass through `loop()`. `formatTimeForFileName` writes its characters and a NUL
into `char dhtLogFileName[15]`; the pass goes on only if they fit. -/
def loop (cfg : Config) (env : Cycle) (s : State) : Outcome :=
  match loopRemount cfg env s with
  | none => .blocked
  | some s =>
    let written := formatTimeForFileName cfg.BUILD_TIME env.millisForFileName
    if written.length + 1 ≤ dhtLogFileNameSize then
      .done (loopWrite cfg env written s)
    else
      .overrun s

/-- Successive passes through `loop`, one per element of `envs`, as long as the
behaviour stays defined. -/
def cycles (cfg : Config) : List Cycle → State → Outcome
  | [], s => .done s
  | env :: envs, s =>
    match loop cfg env s with
    | .done s => cycles cfg envs s
    | .blocked => .blocked
    | .overrun s => .overrun s

/-- The calls made between state `s` and a later state `s2`. -/
def eventsSince (s s2 : State) : List Event :=
  s2.trace.drop s.trace.length

/-- An `SD.begin` call. -/
def Event.isBegin : Event → Bool
  | .sdBegin _ => true
  | _ => false

/-- An `SD.open` call. -/
def Event.isOpen : Event → Bool
  | .sdOpen _ _ => true
  | _ => false

/-- A record write. -/
def Event.isWrite : Event → Bool
  | .filePrintf _ _ _ _ _ => true
  | _ => false

/-- A file close. -/
def Event.isClose : Event → Bool
  | .fileClose => true
  | _ => false

/-- The calls of one failed mount attempt inside `initializeSdCardLoop`. -/
def failedAttempt (cfg : Config) : List Event :=
  [.sdBegin false, .digitalWrite true, .visualError,
    .digitalWrite false, .delay 120, .digitalWrite true, .delay 120,
    .digitalWrite false, .delay 120, .digitalWrite true, .delay 350,
    .digitalWrite false, .delay 120, .digitalWrite true, .delay 120,
    .digitalWrite false, .delay 120, .digitalWrite true, .delay 300,
    .delay (SD_MOUNT_RETRY_SECONDS * DELAY_MULTIPLIER cfg), .digitalWrite false, .delay 500]

/-- The calls of `n` failed mount attempts in a row. -/
def failedAttempts (cfg : Config) : Nat → List Event
  | 0 => []
  | n + 1 => failedAttempt cfg ++ failedAttempts cfg n

/-- The calls of the successful mount attempt and what follows it. -/
def successfulAttempt : List Event :=
  [.sdBegin true, .visualSuccess,
    .digitalWrite false, .delay 220, .digitalWrite true, .delay 150,
    .digitalWrite false, .delay 220, .digitalWrite true]

/-- The calls of `logDhtReadings` when the file opens: open, LED low, one record write, one
close, LED high. -/
def recordCalls (filename timeString : String) (temp hum heatIndexTemp : Nat)
    (writeOk : Bool) : List Event :=
  [.sdOpen filename true, .digitalWrite false,
    .filePrintf timeString temp hum heatIndexTemp writeOk, .fileClose, .digitalWrite true]

/-- The calls of `logDhtReadings` when the file does not open: the failed open, the error
indicator sequence, LED high. -/
def openFailureCalls (filename : String) : List Event :=
  [.sdOpen filename false, .visualError,
    .digitalWrite false, .delay 120, .digitalWrite true, .delay 120,
    .digitalWrite false, .delay 120, .digitalWrite true, .delay 350,
    .digitalWrite false, .delay 120, .digitalWrite true, .delay 120,
    .digitalWrite false, .delay 120, .digitalWrite true, .delay 300,
    .digitalWrite true]

/-! ### Concrete builds and passes used in the examples -/

/-- A release build whose Epoch Anchor is 1642669920 (2022-01-20 09:12:00 UTC). -/
def exampleConfig : Config := { BUILD_TIME := 1642666290, BUILD_TYPE := 0 }

/-- A release build whose Epoch Anchor is 1642723199 (2022-01-20 23:59:59 UTC). -/
def midnightConfig : Config := { BUILD_TIME := 1642719569, BUILD_TYPE := 0 }

/-- A pass in which `SD.open` and the record write succeed; the clock reads 900 ms when
the file name is formed and 1100 ms when the record timestamp is formed. -/
def writingPass : Cycle :=
  { mounts := [true], millisForFileName := 900, rhum := 0, temp := 0, hic := 0,
    openOk := true, millisForCsv := 1100, writeOk := true }

/-! ## Calendar lemmas -/

theorem eraYearOf_mono {a b : Int} (ha : 0 ≤ a) (hab : a ≤ b) (hb : b ≤ 146096) :
    eraYearOf a ≤ eraYearOf b := by
  unfold eraYearOf
  apply Int.ediv_le_ediv (by norm_num)
  have h1 : a - a / 1460 ≤ b - b / 1460 := by omega
  have h2 : a / 36524 ≤ b / 36524 := by omega
  rcases lt_or_le b 146096 with hlt | hge
  · have ga : a / 146096 = 0 := by omega
    have gb : b / 146096 = 0 := by omega
    rw [ga, gb]; omega
  · have hb2 : b = 146096 := by omega
    subst hb2
    rcases lt_or_le a 146096 with hlt | hge
    · have ga : a / 146096 = 0 := by omega
      have h3 : a / 36524 ≤ 3 := by omega
      have h4 : a - a / 1460 ≤ 145995 := by omega
      rw [ga]
      omega
    · have : a = 146096 := by omega
      subst this; exact le_refl _

set_option maxRecDepth 100000 in
theorem eraYearOf_table : ∀ y : Nat, y < 400 →
    eraYearOf (yearStart (y : Int)) = (y : Int) ∧
    eraYearOf (yearStart ((y : Int) + 1) - 1) = (y : Int) := by
  decide

theorem yearStart_step (y : Int) : yearStart y + 365 ≤ yearStart (y + 1) ∧ yearStart (y + 1) ≤ yearStart y + 366 := by
  unfold yearStart; omega

theorem yearStart_bound (y : Int) (h0 : 0 ≤ y) (h1 : y ≤ 400) :
    0 ≤ yearStart y ∧ yearStart y ≤ 146097 := by
  unfold yearStart; omega

theorem eraYearOf_spec (a : Int) (h0 : 0 ≤ a) (ha : a ≤ 146096) :
    0 ≤ eraYearOf a ∧ eraYearOf a ≤ 399 ∧
      yearStart (eraYearOf a) ≤ a ∧ a ≤ yearStart (eraYearOf a) + 365 := by
  have hlo : 0 ≤ eraYearOf a := by
    have h := eraYearOf_mono (le_refl 0) h0 ha
    have hz : eraYearOf 0 = 0 := by decide
    omega
  have hhi : eraYearOf a ≤ 399 := by
    have h := eraYearOf_mono h0 ha (le_refl _)
    have hz : eraYearOf 146096 = 399 := by decide
    omega
  obtain ⟨y, hy⟩ := Int.eq_ofNat_of_zero_le hlo
  have hy399 : y ≤ 399 := by omega
  refine ⟨hlo, hhi, ?_, ?_⟩
  · by_contra hlt
    push_neg at hlt
    rw [hy] at hlt
    rcases Nat.eq_zero_or_pos y with hz | hpos
    · subst hz; simp [yearStart] at hlt; omega
    · obtain ⟨k, rfl⟩ : ∃ k, y = k + 1 := ⟨y - 1, by omega⟩
      have ht := (eraYearOf_table k (by omega)).2
      have hb := yearStart_bound ((k : Int) + 1) (by omega) (by omega)
      push_cast at hlt
      have hm := eraYearOf_mono h0 (show a ≤ yearStart ((k : Int) + 1) - 1 by omega) (by omega)
      rw [ht, hy] at hm
      push_cast at hm
      omega
  · by_contra hgt
    push_neg at hgt
    rw [hy] at hgt
    have hstep := yearStart_step (y : Int)
    rcases Nat.lt_or_ge y 399 with hlt | hge
    · have ht := (eraYearOf_table (y + 1) (by omega)).1
      push_cast at ht
      have hb := yearStart_bound ((y : Int) + 1) (by omega) (by omega)
      have hm := eraYearOf_mono (a := yearStart ((y : Int) + 1)) (b := a) (by omega) (by omega) ha
      rw [ht, hy] at hm
      omega
    · have h : y = 399 := by omega
      subst h
      have : yearStart ((399 : Nat) : Int) = 145731 := by decide
      omega

theorem gmtime_time_range (t : Int) :
    0 ≤ (gmtime t).tm_sec ∧ (gmtime t).tm_sec ≤ 59 ∧
    0 ≤ (gmtime t).tm_min ∧ (gmtime t).tm_min ≤ 59 ∧
    0 ≤ (gmtime t).tm_hour ∧ (gmtime t).tm_hour ≤ 23 := by
  simp only [gmtime]
  omega

theorem eraday_range (days : Int) :
    0 ≤ days - days / 146097 * 146097 ∧ days - days / 146097 * 146097 ≤ 146096 := by
  omega

theorem month_day_range (yearday : Int) (h0 : 0 ≤ yearday) (h1 : yearday ≤ 365) :
    0 ≤ (5 * yearday + 2) / 153 ∧ (5 * yearday + 2) / 153 ≤ 11 ∧
    1 ≤ yearday - (153 * ((5 * yearday + 2) / 153) + 2) / 5 + 1 ∧
    yearday - (153 * ((5 * yearday + 2) / 153) + 2) / 5 + 1 ≤ 31 := by
  omega

theorem gmtime_date_range (t : Int) :
    1 ≤ (gmtime t).tm_mday ∧ (gmtime t).tm_mday ≤ 31 ∧
    0 ≤ (gmtime t).tm_mon ∧ (gmtime t).tm_mon ≤ 11 := by
  have he := eraday_range (t / 86400 + 719468)
  have hy := eraYearOf_spec _ he.1 he.2
  have hm := month_day_range _ (by omega : 0 ≤ (t / 86400 + 719468 - (t / 86400 + 719468) / 146097 * 146097) - yearStart (eraYearOf (t / 86400 + 719468 - (t / 86400 + 719468) / 146097 * 146097))) (by omega)
  simp only [gmtime]
  refine ⟨hm.2.2.1, hm.2.2.2, ?_, ?_⟩ <;> split <;> omega


theorem civil_inj (d1 d2 y1 y2 : Int)
    (hy1 : 0 ≤ y1 ∧ y1 ≤ 399 ∧ yearStart y1 ≤ d1 - d1 / 146097 * 146097 ∧
      d1 - d1 / 146097 * 146097 ≤ yearStart y1 + 365)
    (hy2 : 0 ≤ y2 ∧ y2 ≤ 399 ∧ yearStart y2 ≤ d2 - d2 / 146097 * 146097 ∧
      d2 - d2 / 146097 * 146097 ≤ yearStart y2 + 365)
    (hmon : (if (5 * (d1 - d1 / 146097 * 146097 - yearStart y1) + 2) / 153 < 10
        then (5 * (d1 - d1 / 146097 * 146097 - yearStart y1) + 2) / 153 + 2
        else (5 * (d1 - d1 / 146097 * 146097 - yearStart y1) + 2) / 153 - 10) =
      (if (5 * (d2 - d2 / 146097 * 146097 - yearStart y2) + 2) / 153 < 10
        then (5 * (d2 - d2 / 146097 * 146097 - yearStart y2) + 2) / 153 + 2
        else (5 * (d2 - d2 / 146097 * 146097 - yearStart y2) + 2) / 153 - 10))
    (hyear : y1 + d1 / 146097 * 400 +
        (if (if (5 * (d1 - d1 / 146097 * 146097 - yearStart y1) + 2) / 153 < 10
          then (5 * (d1 - d1 / 146097 * 146097 - yearStart y1) + 2) / 153 + 2
          else (5 * (d1 - d1 / 146097 * 146097 - yearStart y1) + 2) / 153 - 10) ≤ 1 then 1 else 0) =
      y2 + d2 / 146097 * 400 +
        (if (if (5 * (d2 - d2 / 146097 * 146097 - yearStart y2) + 2) / 153 < 10
          then (5 * (d2 - d2 / 146097 * 146097 - yearStart y2) + 2) / 153 + 2
          else (5 * (d2 - d2 / 146097 * 146097 - yearStart y2) + 2) / 153 - 10) ≤ 1 then 1 else 0))
    (hday : d1 - d1 / 146097 * 146097 - yearStart y1 -
        (153 * ((5 * (d1 - d1 / 146097 * 146097 - yearStart y1) + 2) / 153) + 2) / 5 + 1 =
      d2 - d2 / 146097 * 146097 - yearStart y2 -
        (153 * ((5 * (d2 - d2 / 146097 * 146097 - yearStart y2) + 2) / 153) + 2) / 5 + 1) :
    d1 = d2 := by
  generalize hyd1 : d1 - d1 / 146097 * 146097 - yearStart y1 = yd1 at hmon hyear hday
  generalize hyd2 : d2 - d2 / 146097 * 146097 - yearStart y2 = yd2 at hmon hyear hday
  have r1 := month_day_range yd1 (by omega) (by omega)
  have r2 := month_day_range yd2 (by omega) (by omega)
  generalize hmp1 : (5 * yd1 + 2) / 153 = mp1 at hmon hyear hday r1
  generalize hmp2 : (5 * yd2 + 2) / 153 = mp2 at hmon hyear hday r2
  have hmp : mp1 = mp2 := by
    split_ifs at hmon <;> omega
  subst hmp
  have hyd : yd1 = yd2 := by omega
  subst hyd
  have hye : y1 + d1 / 146097 * 400 = y2 + d2 / 146097 * 400 := by
    split_ifs at hyear <;> omega
  have hy : y1 = y2 := by omega
  subst hy
  omega

theorem gmtime_date_inj (t1 t2 : Int)
    (h : calendarDate (gmtime t1) = calendarDate (gmtime t2)) : utcDay t1 = utcDay t2 := by
  have he1 := eraday_range (t1 / 86400 + 719468)
  have hy1 := eraYearOf_spec _ he1.1 he1.2
  have he2 := eraday_range (t2 / 86400 + 719468)
  have hy2 := eraYearOf_spec _ he2.1 he2.2
  simp only [calendarDate, gmtime, Prod.mk.injEq] at h
  obtain ⟨hyear, hmon, hday⟩ := h
  have := civil_inj (t1 / 86400 + 719468) (t2 / 86400 + 719468) _ _ hy1 hy2
    (by omega) (by omega) hday
  unfold utcDay
  omega

theorem gmtime_date_of_day (t1 t2 : Int) (h : utcDay t1 = utcDay t2) :
    calendarDate (gmtime t1) = calendarDate (gmtime t2) := by
  unfold utcDay at h
  simp only [calendarDate, gmtime, h]



/-! ## Decimal rendering lemmas -/

theorem toString_int_ofNat (k : Nat) :
    toString ((k : Nat) : Int) = String.mk (Nat.toDigits 10 k) := rfl

theorem toDigits_two (k : Nat) (h0 : 10 ≤ k) (h1 : k < 100) :
    Nat.toDigits 10 k = [Nat.digitChar (k / 10 % 10), Nat.digitChar (k % 10)] := by
  obtain ⟨j, rfl⟩ : ∃ j, k = j + 1 := ⟨k - 1, by omega⟩
  have hq : (j + 1) / 10 ≠ 0 := by omega
  have hq2 : (j + 1) / 10 / 10 = 0 := by omega
  have hq3 : (j + 1) / 10 % 10 = (j + 1) / 10 := by omega
  obtain ⟨i, rfl⟩ : ∃ i, j = i + 1 := ⟨j - 1, by omega⟩
  simp only [Nat.toDigits, Nat.toDigitsCore, hq, hq2, hq3, if_true, if_false]

theorem toDigits_four (k : Nat) (h0 : 1000 ≤ k) (h1 : k ≤ 9999) :
    Nat.toDigits 10 k = [Nat.digitChar (k / 1000 % 10), Nat.digitChar (k / 100 % 10),
      Nat.digitChar (k / 10 % 10), Nat.digitChar (k % 10)] := by
  obtain ⟨j, rfl⟩ : ∃ j, k = j + 4 := ⟨k - 4, by omega⟩
  have hq : (j + 4) / 10 ≠ 0 := by omega
  have hq2 : (j + 4) / 10 / 10 ≠ 0 := by omega
  have hq3 : (j + 4) / 10 / 10 / 10 ≠ 0 := by omega
  have hq4 : (j + 4) / 10 / 10 / 10 / 10 = 0 := by omega
  have e2 : (j + 4) / 10 / 10 = (j + 4) / 100 := by omega
  have e3 : (j + 4) / 10 / 10 / 10 = (j + 4) / 1000 := by omega
  have e4 : (j + 4) / 1000 % 10 = (j + 4) / 1000 := by omega
  simp only [Nat.toDigits, Nat.toDigitsCore, hq, hq2, hq3, hq4, if_true, if_false]
  rw [e3, e2, e4]

theorem pad_twoDigits (n : Int) (h0 : 0 ≤ n) (h1 : n < 100) :
    (if n < 10 then "0" else "") ++ toString n = twoDigits n := by
  obtain ⟨k, rfl⟩ := Int.eq_ofNat_of_zero_le h0
  have hk : k < 100 := by omega
  rw [toString_int_ofNat]
  by_cases h : k < 10
  · have hlt : ((k : Nat) : Int) < 10 := by omega
    rw [if_pos hlt]
    clear h0 h1 hlt
    interval_cases k <;> rfl
  · have hge : ¬ ((k : Nat) : Int) < 10 := by omega
    rw [if_neg hge, toDigits_two k (by omega) hk]
    rfl

theorem pad_twoDigits_append (n : Int) (rest : String) (h0 : 0 ≤ n) (h1 : n < 100) :
    (if n < 10 then "0" else "") ++ (toString n ++ rest) = twoDigits n ++ rest := by
  rw [← String.append_assoc, pad_twoDigits n h0 h1]

theorem toString_fourDigits (n : Int) (h0 : 1000 ≤ n) (h1 : n ≤ 9999) :
    toString n = fourDigits n := by
  obtain ⟨k, rfl⟩ := Int.eq_ofNat_of_zero_le (by omega : 0 ≤ n)
  rw [toString_int_ofNat, toDigits_four k (by omega) (by omega)]
  rfl

theorem twoDigits_length (n : Int) : (twoDigits n).length = 2 := rfl

theorem fourDigits_length (n : Int) : (fourDigits n).length = 4 := rfl

theorem formatTimeForCsv_eq (B : Int) (millis : Nat)
    (hyear : fourDigitYear (gmtime (currentTime B millis))) :
    formatTimeForCsv B millis = csvTimestamp (gmtime (currentTime B millis)) := by
  have ht := gmtime_time_range (currentTime B millis)
  have hd := gmtime_date_range (currentTime B millis)
  unfold formatTimeForCsv csvTimestamp
  simp only [String.append_assoc]
  rw [pad_twoDigits _ (by omega) (by omega), pad_twoDigits_append _ _ (by omega) (by omega),
    pad_twoDigits_append _ _ (by omega) (by omega),
    pad_twoDigits_append _ _ (by omega) (by omega),
    pad_twoDigits_append _ _ (by omega) (by omega), toString_fourDigits _ hyear.1 hyear.2]

theorem formatTimeForFileName_eq (B : Int) (millis : Nat)
    (hyear : fourDigitYear (gmtime (currentTime B millis))) :
    formatTimeForFileName B millis = logFileName (gmtime (currentTime B millis)) := by
  have hd := gmtime_date_range (currentTime B millis)
  unfold formatTimeForFileName logFileName logFileNameStarter
  simp only [String.append_assoc]
  rw [pad_twoDigits _ (by omega) (by omega), pad_twoDigits_append _ _ (by omega) (by omega),
    toString_fourDigits _ hyear.1 hyear.2]

theorem logFileName_length (aux : Tm) : (logFileName aux).length = 17 := rfl

/-! ## Synthesised time and the two formats -/

theorem currentTime_range (B : Int) (millis : Nat) :
    0 ≤ currentTime B millis ∧ currentTime B millis < 4294967296 := by
  unfold currentTime
  omega

theorem currentTime_spec (B : Int) (millis : Nat) :
    currentTime B millis
      = specCurrentTime (buildTimeWithOffsets B) (millis % 4294967296) % 4294967296 := rfl

theorem currentTime_fourDigitYear (B : Int) (millis : Nat) :
    fourDigitYear (gmtime (currentTime B millis)) := by
  have hr := currentTime_range B millis
  have he := eraday_range (currentTime B millis / 86400 + 719468)
  have hy := eraYearOf_spec _ he.1 he.2
  unfold fourDigitYear
  simp only [gmtime]
  constructor <;> split <;> omega

theorem formatTimeForFileName_length (B : Int) (millis : Nat) :
    (formatTimeForFileName B millis).length = 17 := by
  rw [formatTimeForFileName_eq B millis (currentTime_fourDigitYear B millis), logFileName_length]

/-- C7, as stated, fails: with Epoch Anchor 1642669920 the time computed at uptime 2^32 ms,
where the 32-bit `millis()` counter has wrapped to 0, is 4294967 s earlier than the time
computed one millisecond before; and with Epoch Anchor -1 the unsigned 32-bit sum wraps
between 0 ms and 1000 ms, from 4294967295 back to 0. -/
theorem currentTime_goes_back :
    (4294967295 : Nat) ≤ 4294967296 ∧
    currentTime 1642666290 4294967295 = 1646964887 ∧
    currentTime 1642666290 4294967296 = 1642669920 ∧
    currentTime 1642666290 4294967296 < currentTime 1642666290 4294967295 ∧
    (0 : Nat) ≤ 1000 ∧
    currentTime (-3631) 0 = 4294967295 ∧
    currentTime (-3631) 1000 = 0 ∧
    currentTime (-3631) 1000 < currentTime (-3631) 0 := by
  decide

theorem nowrap_of_nonneg_anchor (B : Int) (U : Nat) (h0 : 0 ≤ buildTimeWithOffsets B)
    (hint : buildTimeWithOffsets B ≤ 2147483647) :
    buildTimeWithOffsets B % 4294967296 + ((U % 4294967296 / 1000 : Nat) : Int)
      < 4294967296 := by
  have : ((U % 4294967296 / 1000 : Nat) : Int) ≤ 4294967 := by omega
  omega

/-- C7, amended: for uptimes `U1 ≤ U2` in the same period of the 32-bit `millis()` counter
(no wrap of the counter between them) and such that the unsigned 32-bit sum of the Epoch
Anchor and the seconds of the reading does not wrap at `U2` (it never does when the Epoch
Anchor is a non-negative `int`), the Current Time is that sum at both uptimes and the
time computed at `U1` is at most the time computed at `U2`. -/
theorem currentTime_mono (BUILD_TIME : Int) (U1 U2 : Nat) (h12 : U1 ≤ U2)
    (hperiod : U1 / 4294967296 = U2 / 4294967296)
    (hsum : buildTimeWithOffsets BUILD_TIME % 4294967296
      + ((U2 % 4294967296 / 1000 : Nat) : Int) < 4294967296) :
    currentTime BUILD_TIME U1 = buildTimeWithOffsets BUILD_TIME % 4294967296
      + ((U1 % 4294967296 / 1000 : Nat) : Int) ∧
    currentTime BUILD_TIME U2 = buildTimeWithOffsets BUILD_TIME % 4294967296
      + ((U2 % 4294967296 / 1000 : Nat) : Int) ∧
    currentTime BUILD_TIME U1 ≤ currentTime BUILD_TIME U2 ∧
    (0 ≤ buildTimeWithOffsets BUILD_TIME → buildTimeWithOffsets BUILD_TIME ≤ 2147483647 →
      U2 < 4294967296 →
      currentTime BUILD_TIME U1 = specCurrentTime (buildTimeWithOffsets BUILD_TIME) U1 ∧
      currentTime BUILD_TIME U2 = specCurrentTime (buildTimeWithOffsets BUILD_TIME) U2) := by
  have hle : U1 % 4294967296 / 1000 ≤ U2 % 4294967296 / 1000 := by
    apply Nat.div_le_div_right
    omega
  have hle2 : ((U1 % 4294967296 / 1000 : Nat) : Int) ≤ ((U2 % 4294967296 / 1000 : Nat) : Int) :=
    Int.ofNat_le.mpr hle
  have e1 : currentTime BUILD_TIME U1 = buildTimeWithOffsets BUILD_TIME % 4294967296
      + ((U1 % 4294967296 / 1000 : Nat) : Int) := by
    unfold currentTime
    omega
  have e2 : currentTime BUILD_TIME U2 = buildTimeWithOffsets BUILD_TIME % 4294967296
      + ((U2 % 4294967296 / 1000 : Nat) : Int) := by
    unfold currentTime
    omega
  refine ⟨e1, e2, by rw [e1, e2]; omega, ?_⟩
  intro h0 hint hU
  rw [e1, e2]
  unfold specCurrentTime
  rw [Nat.mod_eq_of_lt hU, Nat.mod_eq_of_lt (by omega : U1 < 4294967296)]
  have : buildTimeWithOffsets BUILD_TIME % 4294967296 = buildTimeWithOffsets BUILD_TIME := by
    omega
  rw [this]
  exact ⟨rfl, rfl⟩

/-- Witness for C7, amended: Epoch Anchor 1642669920, uptimes 999 ms and 1000 ms. -/
theorem currentTime_mono_witness :
    currentTime 1642666290 999 = 1642669920 ∧ currentTime 1642666290 1000 = 1642669921 ∧
    currentTime 1642666290 999 ≤ currentTime 1642666290 1000 := by
  have h := currentTime_mono 1642666290 999 1000 (by decide) (by decide)
    (nowrap_of_nonneg_anchor 1642666290 1000 (by decide) (by decide))
  exact ⟨by decide, by decide, h.2.2.1⟩

/-- C9: at Epoch Anchor 1642669920 and uptime 0 `formatTimeForFileName` writes the 17
characters `dhtLog_2022-01-20` and a NUL, 18 bytes, into the 15-byte `dhtLogFileName`;
the 19-character timestamp and its NUL do fit the 20-byte `timeString`. -/
theorem dhtLogFileName_overflow :
    formatTimeForFileName 1642666290 0 = "dhtLog_2022-01-20" ∧
    (formatTimeForFileName 1642666290 0).length + 1 = 18 ∧
    dhtLogFileNameSize < (formatTimeForFileName 1642666290 0).length + 1 ∧
    (formatTimeForCsv 1642666290 0).length + 1 ≤ timeStringSize := by
  decide

/-! ## Storage session: mount loop and record write -/

theorem eventsSince_append (s s2 : State) (es : List Event) (h : s2.trace = s.trace ++ es) :
    eventsSince s s2 = es := by
  unfold eventsSince
  rw [h, List.drop_left]

theorem while_replicate (cfg : Config) (n : Nat) (rest : List Bool) (s : State) :
    initializeSdCardLoop_while cfg (List.replicate n false ++ true :: rest) s =
      some ({ errorCount := s.errorCount,
              trace := s.trace ++ (failedAttempts cfg n ++ [.sdBegin true]) }, rest) := by
  induction n generalizing s with
  | zero => simp [initializeSdCardLoop_while, State.emit, failedAttempts]
  | succ n ih =>
    rw [List.replicate_succ, List.cons_append, initializeSdCardLoop_while, ih]
    simp [State.emit, displayLedVisualError, failedAttempts, failedAttempt]

theorem while_all_failed (cfg : Config) (n : Nat) (s : State) :
    initializeSdCardLoop_while cfg (List.replicate n false) s = none := by
  induction n generalizing s with
  | zero => rfl
  | succ n ih => rw [List.replicate_succ, initializeSdCardLoop_while, ih]

theorem while_inv (cfg : Config) (mounts : List Bool) :
    ∀ s s2 rest, initializeSdCardLoop_while cfg mounts s = some (s2, rest) →
      ∃ n, mounts = List.replicate n false ++ true :: rest := by
  induction mounts with
  | nil => intro s s2 rest h; simp [initializeSdCardLoop_while] at h
  | cons b bs ih =>
    intro s s2 rest h
    cases b with
    | true =>
      simp only [initializeSdCardLoop_while, Option.some.injEq, Prod.mk.injEq] at h
      exact ⟨0, by simp [h.2]⟩
    | false =>
      rw [initializeSdCardLoop_while] at h
      obtain ⟨n, hn⟩ := ih _ _ _ h
      exact ⟨n + 1, by simp [List.replicate_succ, hn]⟩

theorem initializeSdCardLoop_replicate (cfg : Config) (n : Nat) (rest : List Bool) (s : State) :
    initializeSdCardLoop cfg (List.replicate n false ++ true :: rest) s =
      some ({ errorCount := 0,
              trace := s.trace ++ (.digitalWrite false ::
                (failedAttempts cfg n ++ successfulAttempt)) }, rest) := by
  unfold initializeSdCardLoop
  rw [while_replicate]
  simp [State.emit, displayLedVisualSuccess, successfulAttempt]

theorem initializeSdCardLoop_inv (cfg : Config) (mounts : List Bool) (s s2 : State)
    (rest : List Bool) (h : initializeSdCardLoop cfg mounts s = some (s2, rest)) :
    ∃ n, mounts = List.replicate n false ++ true :: rest ∧
      s2 = { errorCount := 0,
             trace := s.trace ++ (.digitalWrite false ::
               (failedAttempts cfg n ++ successfulAttempt)) } := by
  have h2 := h
  unfold initializeSdCardLoop at h2
  split at h2
  · exact absurd h2 (by simp)
  · rename_i s3 rest3 hw
    obtain ⟨n, hn⟩ := while_inv cfg mounts _ _ _ hw
    have hrest : rest3 = rest := by
      simp only [Option.some.injEq, Prod.mk.injEq] at h2
      exact h2.2
    subst hrest
    refine ⟨n, hn, ?_⟩
    rw [hn, initializeSdCardLoop_replicate] at h
    simp only [Option.some.injEq, Prod.mk.injEq, and_true] at h
    exact h.symm

theorem failedAttempts_begins (cfg : Config) (n : Nat) :
    (failedAttempts cfg n).countP Event.isBegin = n := by
  induction n with
  | zero => rfl
  | succ n ih =>
    rw [failedAttempts, List.countP_append, ih]
    have : (failedAttempt cfg).countP Event.isBegin = 1 := rfl
    omega

theorem failedAttempts_errors (cfg : Config) (n : Nat) :
    (failedAttempts cfg n).count .visualError = n := by
  induction n with
  | zero => rfl
  | succ n ih =>
    rw [failedAttempts, List.count_append, ih]
    have : (failedAttempt cfg).count .visualError = 1 := by
      simp [failedAttempt, List.count_cons]
    omega

theorem failedAttempts_no_success (cfg : Config) (n : Nat) :
    (failedAttempts cfg n).count .visualSuccess = 0 := by
  induction n with
  | zero => rfl
  | succ n ih =>
    rw [failedAttempts, List.count_append, ih]
    have : (failedAttempt cfg).count .visualSuccess = 0 := by
      simp [failedAttempt, List.count_cons]
    omega

/-- C6: if the first `n` mount attempts fail and attempt `n + 1` succeeds,
`initializeSdCardLoop` returns having consumed exactly those `n + 1` results (with only the
`n` failures it has not returned), having run the error indicator once per failed
attempt and the success indicator once, after the successful attempt, and it leaves
`errorCount` at 0 whatever it was before. -/
theorem initializeSdCardLoop_retries (cfg : Config) (n : Nat) (rest : List Bool) (s : State) :
    ∃ s2, initializeSdCardLoop cfg (List.replicate n false ++ true :: rest) s = some (s2, rest) ∧
      initializeSdCardLoop cfg (List.replicate n false) s = none ∧
      s2.errorCount = 0 ∧
      eventsSince s s2 = .digitalWrite false :: (failedAttempts cfg n ++ successfulAttempt) ∧
      (eventsSince s s2).countP Event.isBegin = n + 1 ∧
      (eventsSince s s2).count .visualError = n ∧
      (eventsSince s s2).count .visualSuccess = 1 ∧
      (failedAttempts cfg n).count .visualSuccess = 0 := by
  refine ⟨_, initializeSdCardLoop_replicate cfg n rest s, ?_, rfl, ?_⟩
  · unfold initializeSdCardLoop
    rw [while_all_failed]
  have he := eventsSince_append s
    { errorCount := 0,
      trace := s.trace ++ (.digitalWrite false :: (failedAttempts cfg n ++ successfulAttempt)) }
    _ rfl
  rw [he]
  refine ⟨rfl, ?_, ?_, ?_, failedAttempts_no_success cfg n⟩
  · rw [List.countP_cons, List.countP_append, failedAttempts_begins]
    have : successfulAttempt.countP Event.isBegin = 1 := rfl
    simp [this, Event.isBegin]
  · rw [List.count_cons, List.count_append, failedAttempts_errors]
    have : successfulAttempt.count .visualError = 0 := by
      simp [successfulAttempt, List.count_cons]
    simp [this]
  · rw [List.count_cons, List.count_append, failedAttempts_no_success]
    have : successfulAttempt.count .visualSuccess = 1 := by
      simp [successfulAttempt, List.count_cons]
    simp [this]

/-- Witness for C6 (`n = 3`): three failed mounts, then a success, from a count of 200. -/
theorem initializeSdCardLoop_retries_witness :
    ∃ s2, initializeSdCardLoop exampleConfig [false, false, false, true]
        { errorCount := 200, trace := [] } = some (s2, []) ∧
      s2.errorCount = 0 ∧
      (eventsSince { errorCount := 200, trace := [] } s2).countP Event.isBegin = 4 ∧
      (eventsSince { errorCount := 200, trace := [] } s2).count .visualError = 3 ∧
      (eventsSince { errorCount := 200, trace := [] } s2).count .visualSuccess = 1 := by
  obtain ⟨s2, h1, _, h3, _, h5, h6, h7, _⟩ :=
    initializeSdCardLoop_retries exampleConfig 3 [] { errorCount := 200, trace := [] }
  exact ⟨s2, h1, h3, h5, h6, h7⟩


theorem logDhtReadings_opened (cfg : Config) (filename : String) (temp hum hic millis : Nat)
    (writeOk : Bool) (s : State) :
    logDhtReadings cfg filename temp hum hic true millis writeOk s =
      (0, { errorCount := 0,
            trace := s.trace ++ recordCalls filename (formatTimeForCsv cfg.BUILD_TIME millis)
              temp hum hic writeOk }) := by
  simp [logDhtReadings, State.emit, recordCalls]

theorem logDhtReadings_not_opened (cfg : Config) (filename : String) (temp hum hic millis : Nat)
    (writeOk : Bool) (s : State) :
    logDhtReadings cfg filename temp hum hic false millis writeOk s =
      (1, { errorCount := s.errorCount, trace := s.trace ++ openFailureCalls filename }) := by
  simp [logDhtReadings, State.emit, displayLedVisualError, openFailureCalls]

/-- C5: `logDhtReadings` returns 0 exactly when the open succeeded. When the open fails
it returns 1 after the failed open, the error indicator sequence and the final LED write,
with no record write, no close and no mount attempt, and leaves `errorCount` alone. When
the open succeeds its calls are the open, the LED write, one record write, one close of
the file and the final LED write, whatever the result of the write. -/
theorem logDhtReadings_contract (cfg : Config) (filename : String) (temp hum hic millis : Nat)
    (openOk writeOk : Bool) (s : State) :
    ((logDhtReadings cfg filename temp hum hic openOk millis writeOk s).1 = 0 ↔ openOk = true) ∧
    ((logDhtReadings cfg filename temp hum hic false millis writeOk s).1 = 1 ∧
      (logDhtReadings cfg filename temp hum hic false millis writeOk s).2.errorCount
        = s.errorCount ∧
      eventsSince s (logDhtReadings cfg filename temp hum hic false millis writeOk s).2
        = .sdOpen filename false ::
          (eventsSince s (displayLedVisualError s) ++ [.digitalWrite true]) ∧
      (eventsSince s (logDhtReadings cfg filename temp hum hic false millis writeOk s).2).count
        .visualError = 1 ∧
      (eventsSince s (logDhtReadings cfg filename temp hum hic false millis writeOk s).2).countP
        Event.isWrite = 0 ∧
      (eventsSince s (logDhtReadings cfg filename temp hum hic false millis writeOk s).2).countP
        Event.isClose = 0 ∧
      (eventsSince s (logDhtReadings cfg filename temp hum hic false millis writeOk s).2).countP
        Event.isBegin = 0) ∧
    ((logDhtReadings cfg filename temp hum hic true millis writeOk s).2.errorCount = 0 ∧
      eventsSince s (logDhtReadings cfg filename temp hum hic true millis writeOk s).2
        = [.sdOpen filename true, .digitalWrite false,
            .filePrintf (formatTimeForCsv cfg.BUILD_TIME millis) temp hum hic writeOk,
            .fileClose, .digitalWrite true] ∧
      (eventsSince s (logDhtReadings cfg filename temp hum hic true millis writeOk s).2).countP
        Event.isWrite = 1 ∧
      (eventsSince s (logDhtReadings cfg filename temp hum hic true millis writeOk s).2).countP
        Event.isClose = 1 ∧
      (eventsSince s (logDhtReadings cfg filename temp hum hic true millis writeOk s).2).countP
        Event.isBegin = 0) := by
  have hf := eventsSince_append s
    { errorCount := s.errorCount, trace := s.trace ++ openFailureCalls filename } _ rfl
  have ht := eventsSince_append s
    { errorCount := 0,
      trace := s.trace ++ recordCalls filename (formatTimeForCsv cfg.BUILD_TIME millis)
        temp hum hic writeOk } _ rfl
  have hv : eventsSince s (displayLedVisualError s) = _ :=
    eventsSince_append s (displayLedVisualError s) _ rfl
  refine ⟨?_, ?_, ?_⟩
  · cases openOk
    · rw [logDhtReadings_not_opened]; simp
    · rw [logDhtReadings_opened]; simp
  · rw [logDhtReadings_not_opened, hf, hv]
    refine ⟨rfl, rfl, rfl, ?_, rfl, rfl, rfl⟩
    simp [openFailureCalls, List.count_cons]
  · rw [logDhtReadings_opened, ht]
    exact ⟨rfl, rfl, rfl, rfl, rfl⟩

/-! ## Acquisition loop -/

theorem loopRemount_small (cfg : Config) (env : Cycle) (s : State) (h : s.errorCount ≤ 11) :
    loopRemount cfg env s = some s := by
  unfold loopRemount
  rw [if_neg (by omega)]

theorem loopRemount_large (cfg : Config) (env : Cycle) (s s1 : State) (h : 11 < s.errorCount)
    (hr : loopRemount cfg env s = some s1) :
    ∃ n rest, env.mounts = List.replicate n false ++ true :: rest ∧
      s1 = { errorCount := 0,
             trace := s.trace ++ (.digitalWrite false ::
               (failedAttempts cfg n ++ successfulAttempt)) } := by
  unfold loopRemount at hr
  rw [if_pos h] at hr
  cases hi : initializeSdCardLoop cfg env.mounts s with
  | none => rw [hi] at hr; simp at hr
  | some p =>
    obtain ⟨s2, rest⟩ := p
    rw [hi] at hr
    simp only [Option.map_some', Option.some.injEq] at hr
    obtain ⟨n, hn, hs⟩ := initializeSdCardLoop_inv cfg env.mounts s s2 rest hi
    exact ⟨n, rest, hn, by rw [← hr, hs]⟩

theorem loopRemount_count (cfg : Config) (env : Cycle) (s s1 : State)
    (hr : loopRemount cfg env s = some s1) : s1.errorCount ≤ 11 := by
  by_cases h : 11 < s.errorCount
  · obtain ⟨n, rest, _, hs⟩ := loopRemount_large cfg env s s1 h hr
    rw [hs]
    exact Nat.zero_le _
  · rw [loopRemount_small cfg env s (by omega)] at hr
    simp only [Option.some.injEq] at hr
    rw [← hr]
    omega

theorem loop_eq (cfg : Config) (env : Cycle) (s : State) :
    loop cfg env s =
      match loopRemount cfg env s with
      | none => .blocked
      | some s1 => .overrun s1 := by
  unfold loop
  cases loopRemount cfg env s with
  | none => rfl
  | some s1 => simp [formatTimeForFileName_length, dhtLogFileNameSize]

theorem loop_never_done (cfg : Config) (env : Cycle) (s s2 : State) :
    loop cfg env s ≠ .done s2 := by
  rw [loop_eq]
  cases loopRemount cfg env s <;> simp

theorem cycles_never_done (cfg : Config) (env : Cycle) (envs : List Cycle) (s s2 : State) :
    cycles cfg (env :: envs) s ≠ .done s2 := by
  rw [cycles]
  cases h : loop cfg env s with
  | done s1 => exact absurd h (loop_never_done cfg env s s1)
  | blocked => simp
  | overrun s1 => simp

theorem loopWrite_errorCount (cfg : Config) (env : Cycle) (dhtLogFileName : String)
    (s : State) :
    (loopWrite cfg env dhtLogFileName s).errorCount
      = if env.openOk = true then 0 else (s.errorCount + 1) % 256 := by
  unfold loopWrite
  cases ho : env.openOk
  · simp [logDhtReadings_not_opened, State.emit]
  · simp [logDhtReadings_opened, State.emit]

theorem initializeSdCardLoop_resets (cfg : Config) (mounts : List Bool) (s s2 : State)
    (rest : List Bool) (h : initializeSdCardLoop cfg mounts s = some (s2, rest)) :
    s2.errorCount = 0 := by
  obtain ⟨n, _, hs⟩ := initializeSdCardLoop_inv cfg mounts s s2 rest h
  rw [hs]

/-- C10, as stated, fails: with the Epoch Anchor at 2022-01-20 23:59:59 UTC, a pass that
reads the clock at 900 ms for the file name and at 1100 ms for the record has
`formatTimeForFileName` write the name of 2022-01-20 and `formatTimeForCsv` write a stamp
of 21/01/2022. -/
theorem record_date_differs_from_file_date :
    writingPass.millisForFileName ≤ writingPass.millisForCsv ∧
    formatTimeForFileName midnightConfig.BUILD_TIME writingPass.millisForFileName
      = "dhtLog_2022-01-20" ∧
    formatTimeForCsv midnightConfig.BUILD_TIME writingPass.millisForCsv
      = "21/01/2022 00:00:00" ∧
    calendarDate (gmtime (currentTime midnightConfig.BUILD_TIME writingPass.millisForFileName))
      = (2022, 1, 20) ∧
    calendarDate (gmtime (currentTime midnightConfig.BUILD_TIME writingPass.millisForCsv))
      = (2022, 1, 21) := by
  decide

/-- C10, amended: for the two clock readings of a pass, `m1` taken by
`formatTimeForFileName` and `m2` taken by `formatTimeForCsv`, with `t1`, `t2` the sums
Epoch Anchor + floor(millis/1000) reduced modulo 2^32: the name written is
`dhtLog_YYYY-MM-DD` of `t1`, the stamp that `logDhtReadings` puts in the record it appends
(whatever file name it is handed) is `DD/MM/YYYY hh:mm:ss` of `t2`, and the two calendar
dates are equal if and only if `t1` and `t2` fall on the same UTC day, in particular
whenever both readings fall in the same second. Which file receives the record is not
part of the statement. -/
theorem record_date_iff_same_day (cfg : Config) (m1 m2 : Nat) (t1 t2 : Int)
    (h1 : t1 = specCurrentTime (buildTimeWithOffsets cfg.BUILD_TIME) (m1 % 4294967296)
      % 4294967296)
    (h2 : t2 = specCurrentTime (buildTimeWithOffsets cfg.BUILD_TIME) (m2 % 4294967296)
      % 4294967296) :
    formatTimeForFileName cfg.BUILD_TIME m1 = logFileName (gmtime t1) ∧
    formatTimeForCsv cfg.BUILD_TIME m2 = csvTimestamp (gmtime t2) ∧
    (∀ filename temp hum hic writeOk s,
      eventsSince s (logDhtReadings cfg filename temp hum hic true m2 writeOk s).2
        = [.sdOpen filename true, .digitalWrite false,
            .filePrintf (csvTimestamp (gmtime t2)) temp hum hic writeOk,
            .fileClose, .digitalWrite true]) ∧
    (calendarDate (gmtime t2) = calendarDate (gmtime t1) ↔ utcDay t2 = utcDay t1) ∧
    (m1 % 4294967296 / 1000 = m2 % 4294967296 / 1000 →
      calendarDate (gmtime t2) = calendarDate (gmtime t1)) := by
  have hc1 : t1 = currentTime cfg.BUILD_TIME m1 := by rw [h1, currentTime_spec]
  have hc2 : t2 = currentTime cfg.BUILD_TIME m2 := by rw [h2, currentTime_spec]
  have hcsv : formatTimeForCsv cfg.BUILD_TIME m2 = csvTimestamp (gmtime t2) := by
    rw [hc2]; exact formatTimeForCsv_eq _ _ (currentTime_fourDigitYear _ _)
  refine ⟨?_, hcsv, ?_, ⟨gmtime_date_inj _ _, gmtime_date_of_day _ _⟩, ?_⟩
  · rw [hc1]; exact formatTimeForFileName_eq _ _ (currentTime_fourDigitYear _ _)
  · intro filename temp hum hic writeOk s
    rw [logDhtReadings_opened, ← hcsv]
    exact eventsSince_append s _ _ rfl
  · intro hsec
    rw [h1, h2]
    unfold specCurrentTime
    rw [hsec]

/-- Witness for C10, amended: Epoch Anchor 2022-01-20 09:12:00 UTC, clock readings 900 ms
and 1100 ms; name `dhtLog_2022-01-20`, stamp `20/01/2022 09:12:01`, same date. -/
theorem record_date_iff_same_day_witness :
    formatTimeForFileName exampleConfig.BUILD_TIME 900 = "dhtLog_2022-01-20" ∧
    formatTimeForCsv exampleConfig.BUILD_TIME 1100 = "20/01/2022 09:12:01" ∧
    calendarDate (gmtime 1642669921) = calendarDate (gmtime 1642669920) := by
  have h := record_date_iff_same_day exampleConfig 900 1100 1642669920 1642669921
    (by decide) (by decide)
  refine ⟨?_, ?_, h.2.2.2.1.mpr (by decide)⟩
  · rw [h.1]; decide
  · rw [h.2.1]; decide

end DhtLogger
